import Mathlib

/-!
Verification development for the modelriver chatbot demo backend
(`src/backend/server.js`).

The backend is embedded shallowly: JavaScript/JSON values become the
inductive `JVal` (with an explicit `undefined` constructor, since the code
distinguishes `undefined` from `null`), the two in-memory `Map`s become
association lists keyed by `JVal`, non-deterministic inputs (uuidv4,
`Date`, the outcome of outbound HTTP calls) become explicit oracle
parameters, and each request handler becomes a total Lean function from
server state and request to an HTTP response, a new state and a trace of
observable events.  Console logging (including `truncateForLog` and the
log-only channel-id consistency warning at server.js lines 318-327) has
no observable effect and is not modelled; all `new Date()` calls within
one handler invocation are modelled by a single clock parameter.
-/

namespace ModelRiver

/-- A JavaScript value as manipulated by the backend: the JSON values plus
`undefined`.  Numbers are modelled as integers (no claim involves
non-integral numbers or NaN). -/
inductive JVal where
  | undefined : JVal
  | null : JVal
  | bool : Bool → JVal
  | num : Int → JVal
  | str : String → JVal
  | arr : List JVal → JVal
  | obj : List (String × JVal) → JVal
deriving Repr

mutual
/-- Auxiliary packed form of `JVal` (a mutual inductive mirrors the nested
one) used only to transport decidable equality onto `JVal`. -/
inductive PackedVal where
  | undefined : PackedVal
  | null : PackedVal
  | bool : Bool → PackedVal
  | num : Int → PackedVal
  | str : String → PackedVal
  | arr : PackedArr → PackedVal
  | obj : PackedObj → PackedVal
deriving DecidableEq

/-- Packed list of values. -/
inductive PackedArr where
  | nil : PackedArr
  | cons : PackedVal → PackedArr → PackedArr
deriving DecidableEq

/-- Packed list of object fields. -/
inductive PackedObj where
  | nil : PackedObj
  | cons : String → PackedVal → PackedObj → PackedObj
deriving DecidableEq
end

mutual
/-- Pack a `JVal` into its mutual-inductive mirror. -/
def JVal.pack : JVal → PackedVal
  | .undefined => .undefined
  | .null => .null
  | .bool b => .bool b
  | .num n => .num n
  | .str s => .str s
  | .arr xs => .arr (packList xs)
  | .obj fs => .obj (packFields fs)

/-- Pack a list of values. -/
def packList : List JVal → PackedArr
  | [] => .nil
  | x :: xs => .cons x.pack (packList xs)

/-- Pack a list of object fields. -/
def packFields : List (String × JVal) → PackedObj
  | [] => .nil
  | (k, v) :: fs => .cons k v.pack (packFields fs)
end

mutual
/-- Unpack the mirror back into a `JVal`. -/
def PackedVal.unpack : PackedVal → JVal
  | .undefined => .undefined
  | .null => .null
  | .bool b => .bool b
  | .num n => .num n
  | .str s => .str s
  | .arr xs => .arr (unpackArr xs)
  | .obj fs => .obj (unpackObj fs)

/-- Unpack a packed list of values. -/
def unpackArr : PackedArr → List JVal
  | .nil => []
  | .cons x xs => x.unpack :: unpackArr xs

/-- Unpack a packed list of fields. -/
def unpackObj : PackedObj → List (String × JVal)
  | .nil => []
  | .cons k v fs => (k, v.unpack) :: unpackObj fs
end

mutual
/-- Packing round-trips, so `JVal.pack` is injective. -/
theorem unpack_pack : ∀ v : JVal, v.pack.unpack = v
  | .undefined => rfl
  | .null => rfl
  | .bool _ => rfl
  | .num _ => rfl
  | .str _ => rfl
  | .arr xs => by
      simp only [JVal.pack, PackedVal.unpack, unpackArr_packList xs]
  | .obj fs => by
      simp only [JVal.pack, PackedVal.unpack, unpackObj_packFields fs]

/-- Round-trip for lists of values. -/
theorem unpackArr_packList : ∀ xs : List JVal, unpackArr (packList xs) = xs
  | [] => rfl
  | x :: xs => by
      simp only [packList, unpackArr, unpack_pack x, unpackArr_packList xs]

/-- Round-trip for lists of fields. -/
theorem unpackObj_packFields : ∀ fs : List (String × JVal),
    unpackObj (packFields fs) = fs
  | [] => rfl
  | (k, v) :: fs => by
      simp only [packFields, unpackObj, unpack_pack v, unpackObj_packFields fs]
end

instance : DecidableEq JVal := fun a b =>
  if h : a.pack = b.pack then
    .isTrue (by rw [← unpack_pack a, ← unpack_pack b, h])
  else
    .isFalse (fun hab => h (by rw [hab]))

/-- JavaScript truthiness: `undefined`, `null`, `false`, `0` and `""` are
falsy; every object and array (even empty) is truthy. -/
def JVal.truthy : JVal → Bool
  | .undefined => false
  | .null => false
  | .bool b => b
  | .num n => n != 0
  | .str s => s != ""
  | .arr _ => true
  | .obj _ => true

/-- The JavaScript `||` operator (`a || b`). -/
def jsOr (a b : JVal) : JVal := if a.truthy then a else b

/-- Property access `v.k` / `v?.k`: field lookup on objects, `undefined`
otherwise (in the backend every such access is either optional-chained or
guarded, so a single total function models both). -/
def JVal.getField : JVal → String → JVal
  | .obj fs, k =>
    match fs.find? (fun p => p.1 == k) with
    | some p => p.2
    | none => .undefined
  | _, _ => .undefined

/-- Whether an object carries a field named `k`. -/
def JVal.hasField : JVal → String → Bool
  | .obj fs, k => (fs.find? (fun p => p.1 == k)).isSome
  | _, _ => false

/-- Indexing `v[i]` with a numeric literal: array element, or (as in
JavaScript, where `a[0]` reads property `"0"`) object lookup of the
decimal key; `undefined` otherwise. -/
def JVal.index : JVal → Nat → JVal
  | .arr xs, i => xs.getD i .undefined
  | .obj fs, i => JVal.getField (.obj fs) (toString i)
  | _, _ => .undefined

/-- `typeof v === 'object'` (true for `null`, arrays and objects). -/
def JVal.typeofIsObject : JVal → Bool
  | .null => true
  | .arr _ => true
  | .obj _ => true
  | _ => false

/-- `Array.isArray`. -/
def JVal.isArr : JVal → Bool
  | .arr _ => true
  | _ => false

/-- `typeof v === 'string'`. -/
def JVal.isStr : JVal → Bool
  | .str _ => true
  | _ => false

mutual
/-- Does the number `n` occur anywhere inside the value?  Used to state
that a response does not carry a given status code. -/
def JVal.mentionsNum : JVal → Int → Bool
  | .num m, n => m == n
  | .arr xs, n => mentionsNumList xs n
  | .obj fs, n => mentionsNumFields fs n
  | _, _ => false

/-- `mentionsNum` over a list of values. -/
def mentionsNumList : List JVal → Int → Bool
  | [], _ => false
  | x :: xs, n => x.mentionsNum n || mentionsNumList xs n

/-- `mentionsNum` over object fields. -/
def mentionsNumFields : List (String × JVal) → Int → Bool
  | [], _ => false
  | (_, v) :: fs, n => v.mentionsNum n || mentionsNumFields fs n
end

/-- JSON string escaping for `JSON.stringify` (quote, backslash and the
common control characters). -/
def escapeJsonChar (c : Char) : String :=
  if c = '"' then "\\\""
  else if c = '\\' then "\\\\"
  else if c = '\n' then "\\n"
  else if c = '\t' then "\\t"
  else if c = '\r' then "\\r"
  else String.singleton c

/-- Quote a string as a JSON string literal. -/
def quoteJson (s : String) : String :=
  "\"" ++ String.join (s.data.map escapeJsonChar) ++ "\""

mutual
/-- `JSON.stringify` on one value: `none` for `undefined` (in JavaScript
`JSON.stringify(undefined)` evaluates to `undefined`, not a string). -/
def serialize : JVal → Option String
  | .undefined => none
  | .null => some "null"
  | .bool true => some "true"
  | .bool false => some "false"
  | .num n => some (toString n)
  | .str s => some (quoteJson s)
  | .arr xs => some ("[" ++ String.intercalate "," (serializeElems xs) ++ "]")
  | .obj fs => some ("\x7b" ++ String.intercalate "," (serializeFields fs) ++ "\x7d")

/-- Array elements: `undefined` elements serialize as `null`. -/
def serializeElems : List JVal → List String
  | [] => []
  | x :: xs =>
    (match serialize x with
     | some s => s
     | none => "null") :: serializeElems xs

/-- Object fields: fields whose value serializes to nothing are dropped. -/
def serializeFields : List (String × JVal) → List String
  | [] => []
  | (k, v) :: fs =>
    match serialize v with
    | some s => (quoteJson k ++ ":" ++ s) :: serializeFields fs
    | none => serializeFields fs
end

/-- `JSON.stringify` as the JavaScript expression: yields a string value,
or `undefined` when applied to `undefined`. -/
def stringifyJS (v : JVal) : JVal :=
  match serialize v with
  | some s => .str s
  | none => .undefined

/-! ### Association-list model of the two JavaScript `Map`s

`conversations` and `pendingRequests` (server.js lines 38-39) are
`Map`s keyed by whatever `channel_id` / `conversation_id` value arrives,
so the keys are arbitrary `JVal`s.  `Map.get`, `Map.set`, `Map.has` and
`Map.delete` become first-match lookup, replace-or-append, and filter. -/

/-- `Map.get` (`undefined` absence is modelled as `none`). -/
def lookupKey {α : Type} (m : List (JVal × α)) (k : JVal) : Option α :=
  match m.find? (fun p => p.1 == k) with
  | some p => some p.2
  | none => none

/-- `Map.set`: update the existing binding in place, else append. -/
def setKey {α : Type} (m : List (JVal × α)) (k : JVal) (v : α) :
    List (JVal × α) :=
  if (m.find? (fun p => p.1 == k)).isSome then
    m.map (fun p => if p.1 == k then (k, v) else p)
  else
    m ++ [(k, v)]

/-- `Map.delete`. -/
def deleteKey {α : Type} (m : List (JVal × α)) (k : JVal) :
    List (JVal × α) :=
  m.filter (fun p => !(p.1 == k))

/-- JavaScript property assignment / object-spread override semantics:
an existing key keeps its position and gets the new value; a new key is
appended. -/
def setField (fs : List (String × JVal)) (k : String) (v : JVal) :
    List (String × JVal) :=
  if (fs.find? (fun p => p.1 == k)).isSome then
    fs.map (fun p => if p.1 == k then (k, v) else p)
  else
    fs ++ [(k, v)]

/-! ### Data model -/

/-- A Correlation Entry: the value stored in `pendingRequests` by the
`/chat` handler (server.js lines 143-148).  Fields are `JVal` because the
stored prompt is the raw `message` body field and `conversationId` may be
a client-supplied value. -/
structure PendingEntry where
  prompt : JVal
  timestamp : Int
  conversationId : JVal
  messageId : JVal
deriving Repr, DecidableEq

/-- The Normalized Record built by the webhook handler
(server.js lines 270-278). -/
structure Record where
  id : JVal
  prompt : JVal
  response : JVal
  created_at : String
  channel_id : JVal
  conversation_id : JVal
  usage : JVal
deriving Repr, DecidableEq

/-- One Conversation Log: a `conversations` value
(server.js lines 300-303). -/
structure ConvLog where
  messages : List Record
  createdAt : String
deriving Repr, DecidableEq

/-- The whole mutable server state: the two in-memory `Map`s. -/
structure ServerState where
  pendingRequests : List (JVal × PendingEntry)
  conversations : List (JVal × ConvLog)
deriving Repr, DecidableEq

/-- An HTTP response produced by a handler (`res.status(...).json(...)`;
a bare `res.json(...)` is status 200). -/
structure HttpResponse where
  status : Nat
  body : JVal
deriving Repr, DecidableEq

/-! ### Webhook handler (`processModelRiverWebhook`, server.js 219-589) -/

/-- Outcome oracle for the one outbound axios POST of the callback
dispatch: either an HTTP response was received (any status), or no
response arrived (timeout, connection failure, setup error). -/
inductive DispatchOutcome where
  | response : Nat → JVal → DispatchOutcome
  | noResponse : DispatchOutcome
deriving Repr, DecidableEq

/-- Observable events of one webhook-handler run, in execution order. -/
inductive Event where
  | correlationLookup : Bool → Event
  | recordStored : JVal → Event
  | callbackSkippedNoUrl : Event
  | callbackSkippedInvalidUrl : Event
  | callbackValidationFailed : Event
  | dispatchAttempted : JVal → JVal → Nat → Event
  | dispatchSucceeded : Nat → Event
  | dispatchFailed : Event
  | ackSent : Nat → JVal → Event
deriving Repr, DecidableEq

/-- The axios call's `timeout: 30000` (server.js line 445). -/
def CALLBACK_TIMEOUT_MS : Nat := 30000

/-- Effect of `validateStatus: (status) => status < 500`
(server.js line 446) on the awaited promise: a received response with
status below 500 resolves (dispatch succeeded); a 5xx response or no
response at all rejects (dispatch failed, caught by the handler). -/
def dispatchDone (d : DispatchOutcome) : Event :=
  match d with
  | .response s _ => if s < 500 then .dispatchSucceeded s else .dispatchFailed
  | .noResponse => .dispatchFailed

/-- The Callback Resolver (server.js lines 228-230):
`callback_url || data?.callback_url || req.headers['x-modelriver-callback-url']`. -/
def resolveCallbackUrl (body headerVal : JVal) : JVal :=
  jsOr (body.getField "callback_url")
    (jsOr ((body.getField "data").getField "callback_url") headerVal)

/-- Is the first character list a prefix of the second? -/
def listIsPrefix : List Char → List Char → Bool
  | [], _ => true
  | _ :: _, [] => false
  | c :: cs, d :: ds => c == d && listIsPrefix cs ds

/-- JavaScript `s.startsWith(pre)` (structurally recursive so that it
evaluates inside the kernel). -/
def jsStartsWith (s pre : String) : Bool := listIsPrefix pre.data s.data

/-- Callback URL validation (server.js line 314): a string starting with
`"http"`. -/
def validCallbackUrl (v : JVal) : Bool :=
  match v with
  | .str s => jsStartsWith s "http"
  | _ => false

/-- The effective data the Payload Normalizer works on
(server.js lines 233 and 257):
`responseData = ai_response?.data || data; responseDataToProcess = responseData || data`. -/
def effectiveData (body : JVal) : JVal :=
  jsOr (jsOr ((body.getField "ai_response").getField "data")
      (body.getField "data"))
    (body.getField "data")

/-- The Payload Normalizer (server.js lines 259-267): pass a truthy
non-`choices`/`response` object through verbatim, else extract
`choices[0].message.content` directly or under a `response` wrapper,
else `JSON.stringify` the whole effective data. -/
def normalizeAiResponse (rdp : JVal) : JVal :=
  if rdp.truthy && rdp.typeofIsObject
      && !(rdp.getField "choices").truthy
      && !(rdp.getField "response").truthy then
    rdp
  else
    jsOr ((((rdp.getField "choices").index 0).getField "message").getField
        "content")
      (jsOr (((((rdp.getField "response").getField "choices").index
            0).getField "message").getField "content")
        (stringifyJS rdp))

/-- Selection of the callback base data (server.js lines 356-368). -/
def selectCallbackData (type ai_response data responseData : JVal) : JVal :=
  if type == JVal.str "task.ai_generated"
      && (ai_response.getField "data").truthy then
    ai_response.getField "data"
  else if data.truthy then
    data
  else
    jsOr responseData (.obj [])

/-- Injection of the minted ids into the callback data
(server.js lines 374-404): merge into objects, wrap arrays under `items`,
wrap primitives under `content`, replace `null`/`undefined` with an
object of ids plus a message. -/
def buildEnrichedData (callbackData messageId conversationId : JVal) : JVal :=
  match callbackData with
  | .obj fs =>
      .obj (setField (setField fs "id" messageId) "conversation_id"
        conversationId)
  | .arr xs =>
      .obj [("items", .arr xs), ("id", messageId),
        ("conversation_id", conversationId)]
  | .null =>
      .obj [("id", messageId), ("conversation_id", conversationId),
        ("message", .str "Response processed")]
  | .undefined =>
      .obj [("id", messageId), ("conversation_id", conversationId),
        ("message", .str "Response processed")]
  | prim =>
      .obj [("content", prim), ("id", messageId),
        ("conversation_id", conversationId)]

/-- The validation guard before sending (server.js line 419): `data`
must be truthy, of object type, and not an array. -/
def validCallbackData (v : JVal) : Bool :=
  v.truthy && v.typeofIsObject && !v.isArr

/-- The Callback Payload built for relay (server.js lines 406-416). -/
def buildCallbackPayload (body messageId conversationId : JVal)
    (now : String) : JVal :=
  let data := body.getField "data"
  let meta := body.getField "meta"
  let type := body.getField "type"
  let ai_response := body.getField "ai_response"
  let responseData := jsOr (ai_response.getField "data") data
  let callbackData := selectCallbackData type ai_response data responseData
  let enrichedData := buildEnrichedData callbackData messageId conversationId
  .obj [
    ("data", jsOr enrichedData (.obj [])),
    ("task_id", messageId),
    ("metadata", .obj [
      ("conversation_id", conversationId),
      ("channel_id", body.getField "channel_id"),
      ("processed_at", .str now),
      ("usage", jsOr (meta.getField "usage")
        (jsOr (data.getField "usage")
          (jsOr ((ai_response.getField "meta").getField "usage")
            (.obj []))))])]
/-- The callback section of the webhook handler
(server.js lines 312-539) as a list of observable events: skip when no
address resolved, skip when the address fails validation, reject
dispatch when the payload's `data` is not a plain object (the `throw` at
line 421, caught by the handler's own catch), otherwise one awaited POST
whose completion event is determined by the outcome oracle. -/
def callbackPhase (body headerCallbackUrl messageId conversationId : JVal)
    (now : String) (outcome : DispatchOutcome) : List Event :=
  let callbackUrl := resolveCallbackUrl body headerCallbackUrl
  if callbackUrl.truthy then
    if !(validCallbackUrl callbackUrl) then
      [.callbackSkippedInvalidUrl]
    else
      let payload := buildCallbackPayload body messageId conversationId now
      if !(validCallbackData (payload.getField "data")) then
        [.callbackValidationFailed]
      else
        [.dispatchAttempted callbackUrl payload CALLBACK_TIMEOUT_MS,
          dispatchDone outcome]
  else
    [.callbackSkippedNoUrl]

/-- Appending the record to a Conversation Log
(server.js lines 300-303): lazily create the log, then push. -/
def appendRecord (convs : List (JVal × ConvLog)) (key : JVal) (r : Record)
    (now : String) : List (JVal × ConvLog) :=
  match lookupKey convs key with
  | some log => setKey convs key { log with messages := log.messages ++ [r] }
  | none => setKey convs key { messages := [r], createdAt := now }

/-- Result of one webhook-handler run. -/
structure WebhookResult where
  state : ServerState
  record : Record
  response : HttpResponse
  trace : List Event
  consumedEntry : Option PendingEntry
deriving Repr, DecidableEq

/-- The webhook handler `processModelRiverWebhook`
(server.js lines 219-589), shared by `POST /webhook` and
`POST /webhook/modelriver`.  Oracles: `headerCallbackUrl` is the
`x-modelriver-callback-url` header (`undefined` when absent), `freshId` the
value `uuidv4()` would return, `now` the clock during this run, and
`outcome` the result of the outbound callback POST (consulted only if a
dispatch is attempted). -/
def processModelRiverWebhook (st : ServerState) (body headerCallbackUrl : JVal)
    (freshId now : String) (outcome : DispatchOutcome) : WebhookResult :=
  let channel_id := body.getField "channel_id"
  let data := body.getField "data"
  let meta := body.getField "meta"
  let ai_response := body.getField "ai_response"
  let responseData := jsOr (ai_response.getField "data") data
  let pendingRequest := lookupKey st.pendingRequests channel_id
  let prompt := match pendingRequest with
    | some e => e.prompt
    | none => .undefined
  let conversationId := match pendingRequest with
    | some e => e.conversationId
    | none => .undefined
  let customMessageId := match pendingRequest with
    | some e => e.messageId
    | none => .undefined
  let messageId := jsOr customMessageId (.str freshId)
  let responseDataToProcess := jsOr responseData data
  let aiResponse := normalizeAiResponse responseDataToProcess
  let record : Record := {
    id := messageId
    prompt := jsOr prompt (.str "Unknown prompt")
    response := aiResponse
    created_at := now
    channel_id := channel_id
    conversation_id := conversationId
    usage := jsOr (meta.getField "usage") (data.getField "usage") }
  let conversations1 := appendRecord st.conversations conversationId record now
  let pending1 := deleteKey st.pendingRequests channel_id
  let callbackEvents : List Event :=
    callbackPhase body headerCallbackUrl messageId conversationId now outcome
  let ackBody : JVal := .obj [
    ("success", .bool true),
    ("message", .str "Webhook processed"),
    ("record_id", messageId),
    ("channel_id", channel_id),
    ("timestamp", .str now)]
  { state := { pendingRequests := pending1, conversations := conversations1 }
    record := record
    response := { status := 200, body := ackBody }
    trace := [.correlationLookup pendingRequest.isSome,
        .recordStored conversationId] ++ callbackEvents
      ++ [.ackSent 200 ackBody]
    consumedEntry := pendingRequest }

/-! ### Request Initiator (`POST /chat`, server.js 78-167) -/

/-- Outcome oracle for the outbound `axios.post` to the workflow engine:
success carries `response.data`; `httpError` carries
`error.response.status`, `error.response.data` and `error.message`;
`networkError` carries only `error.message` (no response received). -/
inductive UpstreamOutcome where
  | success : JVal → UpstreamOutcome
  | httpError : Nat → JVal → String → UpstreamOutcome
  | networkError : String → UpstreamOutcome
deriving Repr, DecidableEq

/-- Result of one `/chat` run: the HTTP response, the new state, and the
payload sent to the workflow engine (`none` when the request was rejected
before the outbound call). -/
structure ChatResult where
  state : ServerState
  response : HttpResponse
  outboundPayload : Option JVal
deriving Repr, DecidableEq

/-- The payload `/chat` sends to the workflow engine
(server.js lines 100-117). -/
def buildModelRiverPayload (message workflow events : JVal)
    (backendPublicUrl : String) (customConversationId customMessageId : JVal)
    (nowMs : Int) : JVal :=
  .obj [
    ("workflow", jsOr workflow (.str "mr_chatbot_workflow")),
    ("messages", .arr [.obj [("role", .str "user"), ("content", message)]]),
    ("delivery_method", .str "websocket"),
    ("webhook_url", .str (backendPublicUrl ++ "/webhook/modelriver")),
    ("events", jsOr events (.arr [.str "webhook_received"])),
    ("metadata", .obj [
      ("conversation_id", customConversationId),
      ("message_id", customMessageId),
      ("original_prompt", message),
      ("timestamp", .num nowMs)])]

/-- The `/chat` handler (server.js lines 78-167).  Oracles:
`freshConversationId` / `freshMessageId` are the two `uuidv4()` values,
`nowMs` the `Date.now()` clock, `outcome` the result of the outbound
call.  A Correlation Entry is inserted only on the success branch, after
the outbound call has returned. -/
def handleChat (st : ServerState) (body : JVal) (apiKeyConfigured : Bool)
    (backendPublicUrl freshConversationId freshMessageId : String)
    (nowMs : Int) (outcome : UpstreamOutcome) : ChatResult :=
  let message := body.getField "message"
  if !message.truthy then
    { state := st
      response := {
        status := 400
        body := .obj [("error", .str "Message is required")] }
      outboundPayload := none }
  else if !apiKeyConfigured then
    { state := st
      response := {
        status := 500
        body := .obj [("error", .str
          "MODELRIVER_API_KEY not configured. Set it in environment variables.")] }
      outboundPayload := none }
  else
    let customConversationId := jsOr (body.getField "conversationId")
      (.str freshConversationId)
    let customMessageId : JVal := .str freshMessageId
    let payload := buildModelRiverPayload message (body.getField "workflow")
      (body.getField "events") backendPublicUrl customConversationId
      customMessageId nowMs
    match outcome with
    | .success respData =>
      let channel_id := respData.getField "channel_id"
      let entry : PendingEntry := {
        prompt := message
        timestamp := nowMs
        conversationId := customConversationId
        messageId := customMessageId }
      { state := { st with
          pendingRequests := setKey st.pendingRequests channel_id entry }
        response := { status := 200, body := .obj [
          ("channel_id", channel_id),
          ("ws_token", respData.getField "ws_token"),
          ("websocket_url", respData.getField "websocket_url"),
          ("websocket_channel", respData.getField "websocket_channel"),
          ("project_id", respData.getField "project_id")] }
        outboundPayload := some payload }
    | .httpError _ respBody errMessage =>
      { state := st
        response := { status := 500, body := .obj [
          ("error", jsOr (respBody.getField "message") (.str errMessage)),
          ("details", respBody)] }
        outboundPayload := some payload }
    | .networkError errMessage =>
      { state := st
        response := { status := 500, body := .obj [
          ("error", .str errMessage),
          ("details", .undefined)] }
        outboundPayload := some payload }

/-! ### Conversation retrieval (`GET /conversations/:id`, server.js 596-604) -/

/-- A Conversation Log as the JSON the endpoint returns. -/
def convLogToJson (log : ConvLog) : JVal :=
  .obj [
    ("messages", .arr (log.messages.map (fun r => .obj [
      ("id", r.id),
      ("prompt", r.prompt),
      ("response", r.response),
      ("created_at", .str r.created_at),
      ("channel_id", r.channel_id),
      ("conversation_id", r.conversation_id),
      ("usage", r.usage)]))),
    ("createdAt", .str log.createdAt)]

/-- The `GET /conversations/:id` handler.  Express route parameters are
always strings, so the lookup key is `JVal.str id`. -/
def getConversation (st : ServerState) (id : String) : HttpResponse :=
  match lookupKey st.conversations (.str id) with
  | none => {
      status := 404
      body := .obj [("error", .str "Conversation not found")] }
  | some log => { status := 200, body := convLogToJson log }

/-! ### Lemmas about the `Map` model -/

/-- After `Map.delete k`, looking up `k` misses. -/
theorem lookupKey_deleteKey_self {α : Type} (m : List (JVal × α)) (k : JVal) :
    lookupKey (deleteKey m k) k = none := by
  unfold lookupKey deleteKey
  have h : (m.filter (fun p => !(p.1 == k))).find? (fun p => p.1 == k)
      = none := by
    rw [List.find?_eq_none]
    intro x hx
    have hf := List.of_mem_filter hx
    simpa using hf
  rw [h]

/-- `find?` for a key distinct from `k` is unchanged by the in-place
update `Map.set` performs on the binding of `k`. -/
theorem find?_map_updateKey {α : Type} (m : List (JVal × α)) (k k1 : JVal)
    (v : α) (h : (k == k1) = false) :
    (m.map (fun q => if q.1 == k then (k, v) else q)).find?
        (fun q => q.1 == k1)
      = m.find? (fun q => q.1 == k1) := by
  induction m with
  | nil => rfl
  | cons p m ih =>
    rw [List.map_cons]
    by_cases hc : (p.1 == k) = true
    · have hp : p.1 = k := by simpa using hc
      have hne : (p.1 == k1) = false := by rw [hp]; exact h
      rw [if_pos hc]
      rw [List.find?_cons_of_neg _ (by simp [h]),
        List.find?_cons_of_neg _ (by simp [hne])]
      exact ih
    · rw [if_neg (by simpa using hc)]
      by_cases hd : (p.1 == k1) = true
      · rw [List.find?_cons_of_pos (p := fun q : JVal × α => q.1 == k1) _ hd,
          List.find?_cons_of_pos (p := fun q : JVal × α => q.1 == k1) _ hd]
      · rw [List.find?_cons_of_neg _ (by simpa using hd),
          List.find?_cons_of_neg _ (by simpa using hd)]
        exact ih

/-- After `Map.set k v`, looking up `k` yields `v`. -/
theorem lookupKey_setKey_self {α : Type} (m : List (JVal × α)) (k : JVal)
    (v : α) : lookupKey (setKey m k v) k = some v := by
  unfold setKey
  by_cases hm : (m.find? (fun p => p.1 == k)).isSome = true
  · rw [if_pos hm]
    unfold lookupKey
    have hfind : (m.map (fun q => if q.1 == k then (k, v) else q)).find?
        (fun q => q.1 == k) = some (k, v) := by
      induction m with
      | nil => simp at hm
      | cons p m ih =>
        rw [List.map_cons]
        by_cases hc : (p.1 == k) = true
        · rw [if_pos hc]
          exact List.find?_cons_of_pos _ (by simp)
        · rw [if_neg (by simpa using hc)]
          rw [List.find?_cons_of_neg _ (by simpa using hc)]
          apply ih
          rw [List.find?_cons_of_neg _ (by simpa using hc)] at hm
          exact hm
    rw [hfind]
  · rw [if_neg hm]
    unfold lookupKey
    have hnone : m.find? (fun p => p.1 == k) = none := by
      cases hfe : m.find? (fun p => p.1 == k) with
      | none => rfl
      | some p => rw [hfe] at hm; simp at hm
    rw [List.find?_append, hnone]
    rw [List.find?_cons_of_pos _ (by simp)]
    rfl

/-- `Map.set k v` leaves every other key unchanged. -/
theorem lookupKey_setKey_ne {α : Type} (m : List (JVal × α)) (k k1 : JVal)
    (v : α) (h : k1 ≠ k) : lookupKey (setKey m k v) k1 = lookupKey m k1 := by
  have hbeq : ((k : JVal) == k1) = false := by
    simp only [beq_eq_false_iff_ne, ne_eq]
    exact fun hq => h hq.symm
  unfold setKey
  by_cases hm : (m.find? (fun p => p.1 == k)).isSome = true
  · rw [if_pos hm]
    unfold lookupKey
    rw [find?_map_updateKey m k k1 v hbeq]
  · rw [if_neg hm]
    unfold lookupKey
    rw [List.find?_append]
    rw [List.find?_cons_of_neg _ (by simp [hbeq])]
    cases m.find? (fun p => p.1 == k1) <;> rfl

/-! ### Shape lemmas for the webhook handler -/

/-- The entry the handler consumed is the Correlation Store lookup of the
body's `channel_id`. -/
theorem webhook_consumedEntry (st : ServerState) (body hdr : JVal)
    (f n : String) (d : DispatchOutcome) :
    (processModelRiverWebhook st body hdr f n d).consumedEntry
      = lookupKey st.pendingRequests (body.getField "channel_id") := rfl

/-- The resulting pending store is the old one with the `channel_id`
binding deleted. -/
theorem webhook_state_pending (st : ServerState) (body hdr : JVal)
    (f n : String) (d : DispatchOutcome) :
    (processModelRiverWebhook st body hdr f n d).state.pendingRequests
      = deleteKey st.pendingRequests (body.getField "channel_id") := rfl

/-- The record's response is the normalizer applied to the effective
data. -/
theorem webhook_record_response (st : ServerState) (body hdr : JVal)
    (f n : String) (d : DispatchOutcome) :
    (processModelRiverWebhook st body hdr f n d).record.response
      = normalizeAiResponse (effectiveData body) := rfl

/-- The record's id as a function of the consumed entry. -/
theorem webhook_record_id (st : ServerState) (body hdr : JVal)
    (f n : String) (d : DispatchOutcome) :
    (processModelRiverWebhook st body hdr f n d).record.id
      = jsOr
        (match lookupKey st.pendingRequests (body.getField "channel_id") with
          | some e => e.messageId
          | none => .undefined)
        (.str f) := rfl

/-- The record's prompt as a function of the consumed entry. -/
theorem webhook_record_prompt (st : ServerState) (body hdr : JVal)
    (f n : String) (d : DispatchOutcome) :
    (processModelRiverWebhook st body hdr f n d).record.prompt
      = jsOr
        (match lookupKey st.pendingRequests (body.getField "channel_id") with
          | some e => e.prompt
          | none => .undefined)
        (.str "Unknown prompt") := rfl

/-- The record's conversation id as a function of the consumed entry. -/
theorem webhook_record_conversation (st : ServerState) (body hdr : JVal)
    (f n : String) (d : DispatchOutcome) :
    (processModelRiverWebhook st body hdr f n d).record.conversation_id
      = (match lookupKey st.pendingRequests (body.getField "channel_id") with
          | some e => e.conversationId
          | none => .undefined) := rfl

/-- The resulting conversations store appends the record under its
conversation id. -/
theorem webhook_state_conversations (st : ServerState) (body hdr : JVal)
    (f n : String) (d : DispatchOutcome) :
    (processModelRiverWebhook st body hdr f n d).state.conversations
      = appendRecord st.conversations
        ((processModelRiverWebhook st body hdr f n d).record.conversation_id)
        ((processModelRiverWebhook st body hdr f n d).record) n := rfl

/-- The handler's HTTP status is unconditionally 200. -/
theorem webhook_response_status (st : ServerState) (body hdr : JVal)
    (f n : String) (d : DispatchOutcome) :
    (processModelRiverWebhook st body hdr f n d).response.status = 200 := rfl

/-- The acknowledgment body starts with `success: true`. -/
theorem webhook_response_success (st : ServerState) (body hdr : JVal)
    (f n : String) (d : DispatchOutcome) :
    ((processModelRiverWebhook st body hdr f n d).response.body).getField
      "success" = .bool true := rfl

/-- The trace is correlation lookup, record store, the callback phase,
then the acknowledgment. -/
theorem webhook_trace (st : ServerState) (body hdr : JVal)
    (f n : String) (d : DispatchOutcome) :
    (processModelRiverWebhook st body hdr f n d).trace
      = [.correlationLookup
          (lookupKey st.pendingRequests (body.getField "channel_id")).isSome,
        .recordStored
          ((processModelRiverWebhook st body hdr f n d).record.conversation_id)]
        ++ callbackPhase body hdr
          ((processModelRiverWebhook st body hdr f n d).record.id)
          ((processModelRiverWebhook st body hdr f n d).record.conversation_id)
          n d
        ++ [.ackSent 200
          (processModelRiverWebhook st body hdr f n d).response.body] := rfl

/-! ### Helper lemmas on the callback phase and the normalizer -/

/-- `a || b` returns `a` when `a` is truthy. -/
theorem jsOr_of_truthy (a b : JVal) (h : a.truthy = true) : jsOr a b = a := by
  simp [jsOr, h]

/-- `a || b` returns `b` when `a` is falsy. -/
theorem jsOr_of_falsy (a b : JVal) (h : a.truthy = false) : jsOr a b = b := by
  simp [jsOr, h]

/-- A field that is absent reads as `undefined`. -/
theorem getField_of_hasField_false (v : JVal) (k : String)
    (h : v.hasField k = false) : v.getField k = .undefined := by
  cases v with
  | obj fs =>
    simp only [JVal.hasField] at h
    cases hfe : fs.find? (fun p => p.1 == k) with
    | none => simp [JVal.getField, hfe]
    | some p => rw [hfe] at h; simp at h
  | undefined => rfl
  | null => rfl
  | bool b => rfl
  | num n => rfl
  | str s => rfl
  | arr xs => rfl

/-- The enriched callback data is an object for every input shape. -/
theorem validCallbackData_buildEnrichedData (cd mid cid : JVal) :
    validCallbackData (buildEnrichedData cd mid cid) = true := by
  cases cd <;> rfl

/-- The enriched callback data is truthy for every input shape. -/
theorem buildEnrichedData_truthy (cd mid cid : JVal) :
    (buildEnrichedData cd mid cid).truthy = true := by
  cases cd <;> rfl

/-- The Callback Payload's `data` field is exactly the enriched data
(the `|| {}` default never fires). -/
theorem buildCallbackPayload_data (body mid cid : JVal) (now : String) :
    (buildCallbackPayload body mid cid now).getField "data"
      = buildEnrichedData
        (selectCallbackData (body.getField "type")
          (body.getField "ai_response") (body.getField "data")
          (jsOr ((body.getField "ai_response").getField "data")
            (body.getField "data")))
        mid cid := by
  have h : (buildCallbackPayload body mid cid now).getField "data"
      = jsOr (buildEnrichedData
          (selectCallbackData (body.getField "type")
            (body.getField "ai_response") (body.getField "data")
            (jsOr ((body.getField "ai_response").getField "data")
              (body.getField "data")))
          mid cid) (.obj []) := rfl
  rw [h, jsOr_of_truthy _ _ (buildEnrichedData_truthy _ _ _)]

/-- A validated callback address is in particular truthy. -/
theorem validCallbackUrl_truthy :
    ∀ v : JVal, validCallbackUrl v = true → v.truthy = true
  | .str s, h => by
    have hne : s ≠ "" := by
      intro hs
      rw [hs] at h
      exact absurd h (by decide)
    simp [JVal.truthy, hne]
  | .undefined, h => Bool.noConfusion h
  | .null, h => Bool.noConfusion h
  | .bool b, h => Bool.noConfusion h
  | .num n, h => Bool.noConfusion h
  | .arr xs, h => Bool.noConfusion h
  | .obj fs, h => Bool.noConfusion h

/-- With a validated address, the callback phase is exactly one dispatch
attempt followed by its completion. -/
theorem callbackPhase_of_valid (body hdr mid cid : JVal) (now : String)
    (outcome : DispatchOutcome)
    (h : validCallbackUrl (resolveCallbackUrl body hdr) = true) :
    callbackPhase body hdr mid cid now outcome
      = [.dispatchAttempted (resolveCallbackUrl body hdr)
          (buildCallbackPayload body mid cid now) CALLBACK_TIMEOUT_MS,
        dispatchDone outcome] := by
  unfold callbackPhase
  simp only [validCallbackUrl_truthy _ h, h, buildCallbackPayload_data,
    validCallbackData_buildEnrichedData, Bool.not_true, Bool.false_eq_true,
    if_true, if_false, ite_false, ite_true]

/-- With no truthy resolved address, the callback phase is skipped. -/
theorem callbackPhase_of_nourl (body hdr mid cid : JVal) (now : String)
    (outcome : DispatchOutcome)
    (h : (resolveCallbackUrl body hdr).truthy = false) :
    callbackPhase body hdr mid cid now outcome = [.callbackSkippedNoUrl] := by
  unfold callbackPhase
  simp only [h, Bool.false_eq_true, if_false, ite_false]

/-- With a truthy but invalid address, dispatch is skipped. -/
theorem callbackPhase_of_invalid (body hdr mid cid : JVal) (now : String)
    (outcome : DispatchOutcome)
    (ht : (resolveCallbackUrl body hdr).truthy = true)
    (h : validCallbackUrl (resolveCallbackUrl body hdr) = false) :
    callbackPhase body hdr mid cid now outcome
      = [.callbackSkippedInvalidUrl] := by
  unfold callbackPhase
  simp only [ht, h, Bool.not_false, if_true, ite_true]

/-- The completion event of a dispatch is success or failure, never the
payload-validation rejection. -/
theorem dispatchDone_ne_validationFailed (d : DispatchOutcome) :
    dispatchDone d ≠ Event.callbackValidationFailed := by
  cases d with
  | response s b =>
    simp only [dispatchDone]
    split <;> simp
  | noResponse => simp [dispatchDone]

/-- The payload-shape validation before sending never fails. -/
theorem callbackPhase_no_validation_failure (body hdr mid cid : JVal)
    (now : String) (outcome : DispatchOutcome) :
    Event.callbackValidationFailed
      ∉ callbackPhase body hdr mid cid now outcome := by
  by_cases hv : validCallbackUrl (resolveCallbackUrl body hdr) = true
  · rw [callbackPhase_of_valid body hdr mid cid now outcome hv]
    simp
    exact fun hh => absurd hh.symm (dispatchDone_ne_validationFailed outcome)
  · by_cases ht : (resolveCallbackUrl body hdr).truthy = true
    · rw [callbackPhase_of_invalid body hdr mid cid now outcome ht
        (by simpa using hv)]
      simp
    · rw [callbackPhase_of_nourl body hdr mid cid now outcome
        (by simpa using ht)]
      simp

/-! ### Normalizer lemmas -/

/-- `a || b` is `undefined` exactly when `a` is falsy and `b` is
`undefined`. -/
theorem jsOr_eq_undef_iff (a b : JVal) :
    jsOr a b = .undefined ↔ (a.truthy = false ∧ b = .undefined) := by
  by_cases h : a.truthy = true
  · rw [jsOr_of_truthy a b h]
    constructor
    · intro ha
      rw [ha] at h
      exact absurd h (by decide)
    · intro hx
      rw [h] at hx
      exact absurd hx.1 (by simp)
  · have hf : a.truthy = false := by simpa using h
    rw [jsOr_of_falsy a b hf]
    simp [hf]

/-- `JSON.stringify` yields `undefined` only on `undefined`. -/
theorem stringifyJS_eq_undef_iff (v : JVal) :
    stringifyJS v = .undefined ↔ v = .undefined := by
  cases v with
  | undefined => simp [stringifyJS, serialize]
  | null => simp [stringifyJS, serialize]
  | bool b => cases b <;> simp [stringifyJS, serialize]
  | num n => simp [stringifyJS, serialize]
  | str s => simp [stringifyJS, serialize]
  | arr xs => simp [stringifyJS, serialize]
  | obj fs => simp [stringifyJS, serialize]

/-- Structured pass-through: a (truthy) object lacking both `choices`
and `response` fields is returned verbatim. -/
theorem normalizeAiResponse_structured (fs : List (String × JVal))
    (hc : JVal.hasField (.obj fs) "choices" = false)
    (hr : JVal.hasField (.obj fs) "response" = false) :
    normalizeAiResponse (.obj fs) = .obj fs := by
  unfold normalizeAiResponse
  rw [getField_of_hasField_false _ _ hc, getField_of_hasField_false _ _ hr]
  simp [JVal.truthy, JVal.typeofIsObject]

/-- The normalizer result is `undefined` exactly when its input is. -/
theorem normalizeAiResponse_eq_undef_iff (rdp : JVal) :
    normalizeAiResponse rdp = .undefined ↔ rdp = .undefined := by
  constructor
  · intro h
    unfold normalizeAiResponse at h
    by_cases hcond : (rdp.truthy && rdp.typeofIsObject
        && !(rdp.getField "choices").truthy
        && !(rdp.getField "response").truthy) = true
    · rw [if_pos hcond] at h
      rw [h] at hcond
      exact absurd hcond (by decide)
    · rw [if_neg hcond] at h
      rw [jsOr_eq_undef_iff] at h
      rw [jsOr_eq_undef_iff] at h
      exact (stringifyJS_eq_undef_iff rdp).mp h.2.2
  · intro h
    rw [h]
    rfl

/-- Fallback: when the structured test fails and neither nested-string
extraction produces a truthy value, the normalizer serializes its
input. -/
theorem normalizeAiResponse_fallback (rdp : JVal)
    (hcond : (rdp.truthy && rdp.typeofIsObject
      && !(rdp.getField "choices").truthy
      && !(rdp.getField "response").truthy) = false)
    (h1 : ((((rdp.getField "choices").index 0).getField "message").getField
      "content").truthy = false)
    (h2 : (((((rdp.getField "response").getField "choices").index
      0).getField "message").getField "content").truthy = false) :
    normalizeAiResponse rdp = stringifyJS rdp := by
  unfold normalizeAiResponse
  rw [if_neg (by simp [hcond])]
  rw [jsOr_of_falsy _ _ h1, jsOr_of_falsy _ _ h2]

/-! ### Concrete fixtures used by witnesses and counterexamples -/

/-- The empty server state. -/
def emptyState : ServerState := { pendingRequests := [], conversations := [] }

/-- A sample Correlation Entry as the `/chat` handler would store it. -/
def sampleEntry : PendingEntry :=
  { prompt := .str "hi", timestamp := 0, conversationId := .str "conv1",
    messageId := .str "m1" }

/-- A state holding `sampleEntry` under channel id `"c1"`. -/
def stateWithEntry : ServerState :=
  { pendingRequests := [(.str "c1", sampleEntry)], conversations := [] }

/-- A minimal webhook body addressed to channel `"c1"`. -/
def bodyC1 : JVal := .obj [("channel_id", .str "c1")]

/-- A webhook body whose data is the conversational `choices` shape with
content `"X"`. -/
def bodyChoicesX : JVal :=
  .obj [("channel_id", .str "c1"),
    ("data", .obj [("choices",
      .arr [.obj [("message", .obj [("content", .str "X")])]])])]

/-! ### Claims -/

/-- Claim C1: consuming the Correlation Entry twice for the same
correlation id yields match-then-miss — the first webhook processed for a
`channel_id` with a pending entry observes that entry and removes it, and
any second webhook processed for the same `channel_id` observes absence
(an empty pending request). -/
theorem correlation_consume_twice (st : ServerState)
    (body1 body2 hdr1 hdr2 : JVal) (f1 n1 f2 n2 : String)
    (d1 d2 : DispatchOutcome) (e : PendingEntry)
    (hcid : body2.getField "channel_id" = body1.getField "channel_id")
    (h : lookupKey st.pendingRequests (body1.getField "channel_id")
      = some e) :
    (processModelRiverWebhook st body1 hdr1 f1 n1 d1).consumedEntry = some e
    ∧ lookupKey
        (processModelRiverWebhook st body1 hdr1 f1 n1 d1).state.pendingRequests
        (body1.getField "channel_id") = none
    ∧ (processModelRiverWebhook
        (processModelRiverWebhook st body1 hdr1 f1 n1 d1).state
        body2 hdr2 f2 n2 d2).consumedEntry = none := by
  refine ⟨?_, ?_, ?_⟩
  · rw [webhook_consumedEntry]
    exact h
  · rw [webhook_state_pending]
    exact lookupKey_deleteKey_self _ _
  · rw [webhook_consumedEntry, webhook_state_pending, hcid]
    exact lookupKey_deleteKey_self _ _

/-- Witness for C1: channel `"c1"` with a stored entry, consumed twice. -/
theorem correlation_consume_twice_witness :
    (processModelRiverWebhook stateWithEntry bodyC1 .undefined "f1" "t1"
      .noResponse).consumedEntry = some sampleEntry
    ∧ lookupKey
        (processModelRiverWebhook stateWithEntry bodyC1 .undefined "f1" "t1"
          .noResponse).state.pendingRequests
        (bodyC1.getField "channel_id") = none
    ∧ (processModelRiverWebhook
        (processModelRiverWebhook stateWithEntry bodyC1 .undefined "f1" "t1"
          .noResponse).state
        bodyC1 .undefined "f2" "t2" .noResponse).consumedEntry = none :=
  correlation_consume_twice stateWithEntry bodyC1 bodyC1 .undefined .undefined
    "f1" "t1" "f2" "t2" .noResponse .noResponse sampleEntry rfl rfl

/-- Claim C2: for every inbound webhook — whatever the body, header,
correlation-store contents and dispatch outcome, so in particular with no
correlation match, an invalid callback address, or a failed/timed-out
dispatch — the handler acknowledges with HTTP 200 and `success: true`.
(The embedding is exception-free, so the code's 500 branch, reachable
only by an unexpected exception, is never taken.) -/
theorem webhook_always_acknowledges (st : ServerState) (body hdr : JVal)
    (f n : String) (d : DispatchOutcome) :
    (processModelRiverWebhook st body hdr f n d).response.status = 200
    ∧ ((processModelRiverWebhook st body hdr f n d).response.body).getField
        "success" = .bool true :=
  ⟨webhook_response_status st body hdr f n d,
    webhook_response_success st body hdr f n d⟩

/-- Claim C4: with a matching Correlation Entry (whose locally minted
fields are truthy, as the Request Initiator guarantees) the record takes
the entry's `messageId` and prompt; with no match it takes the freshly
minted id and the `"Unknown prompt"` sentinel, and the handler still
responds 200. -/
theorem record_identity (st : ServerState) (body hdr : JVal) (f n : String)
    (d : DispatchOutcome) :
    (∀ e : PendingEntry,
      lookupKey st.pendingRequests (body.getField "channel_id") = some e →
      e.messageId.truthy = true → e.prompt.truthy = true →
      (processModelRiverWebhook st body hdr f n d).record.id = e.messageId
      ∧ (processModelRiverWebhook st body hdr f n d).record.prompt
        = e.prompt)
    ∧ (lookupKey st.pendingRequests (body.getField "channel_id") = none →
      (processModelRiverWebhook st body hdr f n d).record.id = .str f
      ∧ (processModelRiverWebhook st body hdr f n d).record.prompt
        = .str "Unknown prompt"
      ∧ (processModelRiverWebhook st body hdr f n d).response.status
        = 200) := by
  constructor
  · intro e he hm hp
    constructor
    · have h1 : (processModelRiverWebhook st body hdr f n d).record.id
          = jsOr e.messageId (.str f) := by
        rw [webhook_record_id, he]
      rw [h1]
      exact jsOr_of_truthy _ _ hm
    · have h1 : (processModelRiverWebhook st body hdr f n d).record.prompt
          = jsOr e.prompt (.str "Unknown prompt") := by
        rw [webhook_record_prompt, he]
      rw [h1]
      exact jsOr_of_truthy _ _ hp
  · intro he
    refine ⟨?_, ?_, webhook_response_status st body hdr f n d⟩
    · have h1 : (processModelRiverWebhook st body hdr f n d).record.id
          = jsOr .undefined (.str f) := by
        rw [webhook_record_id, he]
      rw [h1]
      exact jsOr_of_falsy _ _ rfl
    · have h1 : (processModelRiverWebhook st body hdr f n d).record.prompt
          = jsOr .undefined (.str "Unknown prompt") := by
        rw [webhook_record_prompt, he]
      rw [h1]
      exact jsOr_of_falsy _ _ rfl

/-- Witness for C4: the correlated case takes the entry's id `"m1"`, the
uncorrelated case takes the sentinel prompt. -/
theorem record_identity_witness :
    (processModelRiverWebhook stateWithEntry bodyC1 .undefined "f1" "t1"
      .noResponse).record.id = JVal.str "m1"
    ∧ (processModelRiverWebhook emptyState bodyC1 .undefined "f1" "t1"
      .noResponse).record.prompt = JVal.str "Unknown prompt" := by
  constructor
  · exact ((record_identity stateWithEntry bodyC1 .undefined "f1" "t1"
      .noResponse).1 sampleEntry rfl rfl rfl).1
  · exact ((record_identity emptyState bodyC1 .undefined "f1" "t1"
      .noResponse).2 rfl).2.1

/-- Claim C3: normalizer round-trip — when the effective data is a
non-array object with neither a `choices` nor a `response` field, the
record's response is that object itself (structurally identical, hence
byte-identical when serialized); and for the `choices` shape with content
`"X"` the record's response is the string `"X"`. -/
theorem normalizer_roundtrip (st : ServerState) (body hdr : JVal)
    (f n : String) (d : DispatchOutcome) (fs : List (String × JVal))
    (hed : effectiveData body = .obj fs)
    (hc : JVal.hasField (.obj fs) "choices" = false)
    (hr : JVal.hasField (.obj fs) "response" = false) :
    (processModelRiverWebhook st body hdr f n d).record.response = .obj fs
    ∧ (processModelRiverWebhook st bodyChoicesX hdr f n d).record.response
      = .str "X" := by
  constructor
  · rw [webhook_record_response, hed]
    exact normalizeAiResponse_structured fs hc hr
  · rw [webhook_record_response]
    rfl

/-- Witness for C3: a structured object passes through verbatim. -/
theorem normalizer_roundtrip_witness :
    (processModelRiverWebhook emptyState
      (JVal.obj [("channel_id", .str "c1"),
        ("data", .obj [("answer", .str "ok")])])
      .undefined "f1" "t1" .noResponse).record.response
      = JVal.obj [("answer", .str "ok")] :=
  (normalizer_roundtrip emptyState
    (JVal.obj [("channel_id", .str "c1"),
      ("data", .obj [("answer", .str "ok")])])
    .undefined "f1" "t1" .noResponse
    [("answer", .str "ok")] rfl rfl rfl).1

/-- Counterexample to claim C5 ("the normalized record's `response` is
never undefined"): for the well-formed JSON webhook body
`{"channel_id":"c1"}` — no `data` field and no `ai_response` — the
effective data is `undefined`, `JSON.stringify(undefined)` is
`undefined`, and the stored record's `response` is `undefined`, not the
serialized payload. -/
theorem normalizer_undefined_counterexample :
    (processModelRiverWebhook emptyState bodyC1 .undefined "f1" "t1"
      .noResponse).record.response = JVal.undefined := rfl

/-- Claim C5 as amended: the normalizer is total and deterministic, but
its result is `undefined` exactly when the effective data is `undefined`
(no `data` field and a falsy `ai_response.data`); whenever the effective
data is defined and neither the structured test nor a nested string
extraction applies, the response is the serialized effective data. -/
theorem normalizer_total_amended (st : ServerState) (body hdr : JVal)
    (f n : String) (d : DispatchOutcome) :
    ((processModelRiverWebhook st body hdr f n d).record.response = .undefined
      ↔ effectiveData body = .undefined)
    ∧ (((effectiveData body).truthy
          && (effectiveData body).typeofIsObject
          && !((effectiveData body).getField "choices").truthy
          && !((effectiveData body).getField "response").truthy) = false →
      (((((effectiveData body).getField "choices").index 0).getField
          "message").getField "content").truthy = false →
      ((((((effectiveData body).getField "response").getField
          "choices").index 0).getField "message").getField
          "content").truthy = false →
      (processModelRiverWebhook st body hdr f n d).record.response
        = stringifyJS (effectiveData body)) := by
  constructor
  · rw [webhook_record_response]
    exact normalizeAiResponse_eq_undef_iff _
  · intro hcond h1 h2
    rw [webhook_record_response]
    exact normalizeAiResponse_fallback _ hcond h1 h2

/-- Witness for C5 (amended): numeric effective data `5` falls back to
its serialization `"5"`. -/
theorem normalizer_total_amended_witness :
    (processModelRiverWebhook emptyState
      (JVal.obj [("channel_id", .str "c1"), ("data", .num 5)])
      .undefined "f1" "t1" .noResponse).record.response = JVal.str "5" := by
  have h := (normalizer_total_amended emptyState
    (JVal.obj [("channel_id", .str "c1"), ("data", .num 5)])
    .undefined "f1" "t1" .noResponse).2 (by decide) (by decide) (by decide)
  exact h.trans rfl

/-- Claim C9 (implicit): a webhook whose `channel_id` has no pending
entry yields a record with `conversation_id = undefined`, appended to the
Conversation Log stored under the `undefined` key of the conversations
map — and that log is unreachable through `GET /conversations/:id`,
whose lookups use string keys: the endpoint's answer for every string id
is exactly what it was before the webhook. -/
theorem uncorrelated_record_isolated (st : ServerState) (body hdr : JVal)
    (f n : String) (d : DispatchOutcome)
    (h : lookupKey st.pendingRequests (body.getField "channel_id")
      = none) :
    (processModelRiverWebhook st body hdr f n d).record.conversation_id
      = JVal.undefined
    ∧ (∃ log : ConvLog,
        lookupKey
          (processModelRiverWebhook st body hdr f n d).state.conversations
          JVal.undefined = some log
        ∧ (processModelRiverWebhook st body hdr f n d).record
          ∈ log.messages)
    ∧ (∀ s : String,
        getConversation (processModelRiverWebhook st body hdr f n d).state s
          = getConversation st s) := by
  have hcid :
      (processModelRiverWebhook st body hdr f n d).record.conversation_id
        = JVal.undefined := by
    rw [webhook_record_conversation, h]
  refine ⟨hcid, ?_, ?_⟩
  · rw [webhook_state_conversations, hcid]
    unfold appendRecord
    cases hl : lookupKey st.conversations JVal.undefined with
    | some log =>
      refine ⟨_, lookupKey_setKey_self _ _ _, ?_⟩
      simp
    | none =>
      refine ⟨_, lookupKey_setKey_self _ _ _, ?_⟩
      simp
  · intro s
    have hne : JVal.str s ≠ JVal.undefined := fun hx => JVal.noConfusion hx
    have hlk :
        lookupKey
          (processModelRiverWebhook st body hdr f n d).state.conversations
          (JVal.str s) = lookupKey st.conversations (JVal.str s) := by
      rw [webhook_state_conversations, hcid]
      unfold appendRecord
      cases hl : lookupKey st.conversations JVal.undefined with
      | some log => exact lookupKey_setKey_ne _ _ _ _ hne
      | none => exact lookupKey_setKey_ne _ _ _ _ hne
    unfold getConversation
    rw [hlk]

/-- Witness for C9: an uncorrelated webhook into the empty state. -/
theorem uncorrelated_record_isolated_witness :
    (processModelRiverWebhook emptyState bodyC1 .undefined "f1" "t1"
      .noResponse).record.conversation_id = JVal.undefined
    ∧ (∃ log : ConvLog,
        lookupKey
          (processModelRiverWebhook emptyState bodyC1 .undefined "f1" "t1"
            .noResponse).state.conversations JVal.undefined = some log
        ∧ (processModelRiverWebhook emptyState bodyC1 .undefined "f1" "t1"
            .noResponse).record ∈ log.messages)
    ∧ (∀ s : String,
        getConversation
          (processModelRiverWebhook emptyState bodyC1 .undefined "f1" "t1"
            .noResponse).state s
          = getConversation emptyState s) :=
  uncorrelated_record_isolated emptyState bodyC1 .undefined "f1" "t1"
    .noResponse rfl

/-- A webhook body whose top-level `callback_url` field is present but
empty while `data.callback_url` holds an address. -/
def bodyFalsyCallback : JVal :=
  .obj [("callback_url", .str ""),
    ("data", .obj [("callback_url", .str "http://b")])]

/-- Counterexample to claim C6 as stated ("if a top-level `callback_url`
field is present it is chosen"): in `bodyFalsyCallback` the top-level
field is present (with the empty-string value), yet the resolver chooses
`data.callback_url` — resolution tests JavaScript truthiness, not
presence. -/
theorem callback_precedence_counterexample :
    JVal.hasField bodyFalsyCallback "callback_url" = true
    ∧ resolveCallbackUrl bodyFalsyCallback .undefined = JVal.str "http://b"
    ∧ resolveCallbackUrl bodyFalsyCallback .undefined
      ≠ bodyFalsyCallback.getField "callback_url" := by
  refine ⟨rfl, rfl, ?_⟩
  decide

/-- Claim C6 as amended: the resolver honours strict precedence by
truthiness — a truthy top-level `callback_url` wins; otherwise a truthy
`data.callback_url`; otherwise the header value; and when the resolved
value is falsy (in particular when none of the three is present) no
dispatch is ever attempted. -/
theorem callback_precedence_amended (st : ServerState) (body hv : JVal)
    (f n : String) (d : DispatchOutcome) :
    ((body.getField "callback_url").truthy = true →
      resolveCallbackUrl body hv = body.getField "callback_url")
    ∧ ((body.getField "callback_url").truthy = false →
      ((body.getField "data").getField "callback_url").truthy = true →
      resolveCallbackUrl body hv
        = (body.getField "data").getField "callback_url")
    ∧ ((body.getField "callback_url").truthy = false →
      ((body.getField "data").getField "callback_url").truthy = false →
      resolveCallbackUrl body hv = hv)
    ∧ ((resolveCallbackUrl body hv).truthy = false →
      ∀ (u p : JVal) (t : Nat),
        Event.dispatchAttempted u p t
          ∉ (processModelRiverWebhook st body hv f n d).trace) := by
  refine ⟨?_, ?_, ?_, ?_⟩
  · intro h1
    unfold resolveCallbackUrl
    exact jsOr_of_truthy _ _ h1
  · intro h1 h2
    unfold resolveCallbackUrl
    rw [jsOr_of_falsy _ _ h1]
    exact jsOr_of_truthy _ _ h2
  · intro h1 h2
    unfold resolveCallbackUrl
    rw [jsOr_of_falsy _ _ h1]
    exact jsOr_of_falsy _ _ h2
  · intro hfalsy u p t hmem
    rw [webhook_trace] at hmem
    rw [callbackPhase_of_nourl body hv _ _ n d hfalsy] at hmem
    rcases List.mem_append.mp hmem with hmem1 | hmem2
    · rcases List.mem_append.mp hmem1 with hmem3 | hmem4
      · simp at hmem3
      · simp at hmem4
    · simp at hmem2

/-- Witness for C6 (amended): with both a truthy body-level address and a
header address present, the body-level one wins. -/
theorem callback_precedence_amended_witness :
    resolveCallbackUrl
      (JVal.obj [("callback_url", .str "http://a")]) (.str "http://h")
      = (JVal.obj [("callback_url", .str "http://a")]).getField
        "callback_url" :=
  (callback_precedence_amended emptyState
    (JVal.obj [("callback_url", .str "http://a")]) (.str "http://h")
    "f1" "t1" .noResponse).1 rfl

/-- The `/chat` body `{"message":"hi"}`. -/
def chatBodyHi : JVal := .obj [("message", .str "hi")]

/-- An upstream failure: HTTP 503 with body `{"message":"boom"}`. -/
def upstream503 : UpstreamOutcome :=
  .httpError 503 (.obj [("message", .str "boom")])
    "Request failed with status code 503"

/-- Counterexample to claim C7 as stated ("the caller receives a 500
carrying the upstream status and body"): for an upstream 503 with body
`{"message":"boom"}`, the handler's response is a 500 whose body carries
only the upstream error message and body (`details`); the upstream
status 503 appears nowhere in the response (it is only logged). -/
theorem chat_upstream_status_not_carried :
    (handleChat emptyState chatBodyHi true "http://localhost:4000" "cv1"
      "mi1" 0 upstream503).response.status = 500
    ∧ (handleChat emptyState chatBodyHi true "http://localhost:4000" "cv1"
      "mi1" 0 upstream503).response.body
      = JVal.obj [("error", .str "boom"),
        ("details", .obj [("message", .str "boom")])]
    ∧ JVal.mentionsNum
      ((handleChat emptyState chatBodyHi true "http://localhost:4000"
        "cv1" "mi1" 0 upstream503).response.body) 503 = false := by
  refine ⟨rfl, rfl, rfl⟩

/-- Claim C7 as amended: for every valid (truthy) prompt, when the
outbound call fails — with an HTTP error response or with no response at
all — the Request Initiator inserts no Correlation Entry (the pending
store, indeed the whole state, is unchanged) and the caller receives a
500 carrying the upstream error message and, for HTTP errors, the
upstream response body as `details` (the upstream status code is logged
but not included in the response). -/
theorem chat_no_orphan_on_failure (st : ServerState) (body : JVal)
    (url fc fm : String) (nowMs : Int) (status : Nat) (respBody : JVal)
    (errMsg : String)
    (h : (body.getField "message").truthy = true) :
    (handleChat st body true url fc fm nowMs
      (.httpError status respBody errMsg)).state = st
    ∧ (handleChat st body true url fc fm nowMs
      (.httpError status respBody errMsg)).response.status = 500
    ∧ (handleChat st body true url fc fm nowMs
      (.httpError status respBody errMsg)).response.body
      = JVal.obj [("error", jsOr (respBody.getField "message")
          (.str errMsg)), ("details", respBody)]
    ∧ (∀ msg2 : String,
      (handleChat st body true url fc fm nowMs
        (.networkError msg2)).state = st
      ∧ (handleChat st body true url fc fm nowMs
        (.networkError msg2)).response.status = 500
      ∧ (handleChat st body true url fc fm nowMs
        (.networkError msg2)).response.body
        = JVal.obj [("error", .str msg2), ("details", .undefined)]) := by
  refine ⟨?_, ?_, ?_, fun msg2 => ⟨?_, ?_, ?_⟩⟩ <;>
    simp [handleChat, h]

/-- Witness for C7 (amended): concrete failing call leaves the empty
state empty. -/
theorem chat_no_orphan_on_failure_witness :
    (handleChat emptyState chatBodyHi true "http://localhost:4000" "cv1"
      "mi1" 0 upstream503).state = emptyState
    ∧ (handleChat emptyState chatBodyHi true "http://localhost:4000" "cv1"
      "mi1" 0 upstream503).response.status = 500 := by
  have h := chat_no_orphan_on_failure emptyState chatBodyHi
    "http://localhost:4000" "cv1" "mi1" 0 503
    (.obj [("message", .str "boom")])
    "Request failed with status code 503" rfl
  exact ⟨h.1, h.2.1⟩

/-- Claim C8: for every attempted dispatch the Callback Payload's `data`
is a non-null, non-array object — objects are merged with the minted
ids, arrays wrapped under `items`, primitives wrapped under `content`,
`null`/`undefined` replaced by an object of ids plus a message — so the
data-must-be-an-object validation before sending never fails (its
rejection event never occurs in any handler trace). -/
theorem callback_payload_always_object (cd mid cid : JVal)
    (st : ServerState) (body hdr : JVal) (f n : String)
    (d : DispatchOutcome) :
    validCallbackData (buildEnrichedData cd mid cid) = true
    ∧ (∀ fs : List (String × JVal),
      buildEnrichedData (.obj fs) mid cid
        = .obj (setField (setField fs "id" mid) "conversation_id" cid))
    ∧ (∀ xs : List JVal,
      buildEnrichedData (.arr xs) mid cid
        = .obj [("items", .arr xs), ("id", mid),
          ("conversation_id", cid)])
    ∧ (∀ b : Bool,
      buildEnrichedData (.bool b) mid cid
        = .obj [("content", .bool b), ("id", mid),
          ("conversation_id", cid)])
    ∧ (∀ i : Int,
      buildEnrichedData (.num i) mid cid
        = .obj [("content", .num i), ("id", mid),
          ("conversation_id", cid)])
    ∧ (∀ s : String,
      buildEnrichedData (.str s) mid cid
        = .obj [("content", .str s), ("id", mid),
          ("conversation_id", cid)])
    ∧ buildEnrichedData .null mid cid
      = .obj [("id", mid), ("conversation_id", cid),
        ("message", .str "Response processed")]
    ∧ buildEnrichedData .undefined mid cid
      = .obj [("id", mid), ("conversation_id", cid),
        ("message", .str "Response processed")]
    ∧ Event.callbackValidationFailed
      ∉ (processModelRiverWebhook st body hdr f n d).trace := by
  refine ⟨validCallbackData_buildEnrichedData cd mid cid,
    fun fs => rfl, fun xs => rfl, fun b => rfl, fun i => rfl,
    fun s => rfl, rfl, rfl, ?_⟩
  intro hmem
  rw [webhook_trace] at hmem
  rcases List.mem_append.mp hmem with hmem1 | hmem2
  · rcases List.mem_append.mp hmem1 with hmem3 | hmem4
    · simp at hmem3
    · exact callbackPhase_no_validation_failure body hdr _ _ n d hmem4
  · simp at hmem2

/-- Claim C10 (implicit): when a validated callback address exists, the
handler awaits the dispatch before acknowledging — in every execution
trace the dispatch attempt (made with the dispatcher's 30-second
timeout) and its completion event (success for status codes below 500,
failure for 5xx, timeouts and connection errors) strictly precede the
200 acknowledgment, which is the final event. -/
theorem ack_after_dispatch (st : ServerState) (body hdr : JVal)
    (f n : String) (d : DispatchOutcome)
    (h : validCallbackUrl (resolveCallbackUrl body hdr) = true) :
    (∃ pre : List Event, ∃ payload : JVal,
      (processModelRiverWebhook st body hdr f n d).trace
        = pre ++ [Event.dispatchAttempted (resolveCallbackUrl body hdr)
            payload CALLBACK_TIMEOUT_MS,
          dispatchDone d,
          Event.ackSent 200
            (processModelRiverWebhook st body hdr f n d).response.body])
    ∧ CALLBACK_TIMEOUT_MS = 30000
    ∧ (∀ (s : Nat) (b : JVal), d = .response s b → s < 500 →
      dispatchDone d = .dispatchSucceeded s)
    ∧ (∀ (s : Nat) (b : JVal), d = .response s b → ¬s < 500 →
      dispatchDone d = .dispatchFailed)
    ∧ (d = .noResponse → dispatchDone d = .dispatchFailed) := by
  refine ⟨?_, rfl, ?_, ?_, ?_⟩
  · refine ⟨[.correlationLookup
        (lookupKey st.pendingRequests (body.getField "channel_id")).isSome,
      .recordStored
        ((processModelRiverWebhook st body hdr f n d).record.conversation_id)],
      buildCallbackPayload body
        ((processModelRiverWebhook st body hdr f n d).record.id)
        ((processModelRiverWebhook st body hdr f n d).record.conversation_id)
        n, ?_⟩
    rw [webhook_trace, callbackPhase_of_valid body hdr _ _ n d h]
    rfl
  · intro s b hd hlt
    rw [hd]
    simp [dispatchDone, hlt]
  · intro s b hd hge
    rw [hd]
    simp [dispatchDone, hge]
  · intro hd
    rw [hd]
    rfl

/-- Witness for C10: a correlated webhook carrying a valid callback
address, with the dispatch resolving at status 200. -/
theorem ack_after_dispatch_witness :
    ∃ pre : List Event, ∃ payload : JVal,
      (processModelRiverWebhook stateWithEntry
        (JVal.obj [("channel_id", .str "c1"),
          ("callback_url", .str "http://cb.example/callback/c1"),
          ("data", .obj [("answer", .str "ok")])])
        .undefined "f1" "t1" (.response 200 (.obj []))).trace
        = pre ++ [Event.dispatchAttempted
            (resolveCallbackUrl
              (JVal.obj [("channel_id", .str "c1"),
                ("callback_url", .str "http://cb.example/callback/c1"),
                ("data", .obj [("answer", .str "ok")])])
              .undefined)
            payload CALLBACK_TIMEOUT_MS,
          dispatchDone (.response 200 (.obj [])),
          Event.ackSent 200
            (processModelRiverWebhook stateWithEntry
              (JVal.obj [("channel_id", .str "c1"),
                ("callback_url", .str "http://cb.example/callback/c1"),
                ("data", .obj [("answer", .str "ok")])])
              .undefined "f1" "t1" (.response 200 (.obj []))).response.body] :=
  (ack_after_dispatch stateWithEntry
    (JVal.obj [("channel_id", .str "c1"),
      ("callback_url", .str "http://cb.example/callback/c1"),
      ("data", .obj [("answer", .str "ok")])])
    .undefined "f1" "t1" (.response 200 (.obj [])) (by decide)).1
